import Mathlib

/-!
Verification development for the rust-bitcoin-rpc crate (src/src/lib.rs):
a typed JSON-RPC client binding for bitcoind.  The typed call layer of the
source is shallowly embedded below: the external transport collaborator
(the jsonrpc crate's `Client`) is modelled through its narrow interface
(`build_request` / `send_request`), the generic self-describing value
representation (strason's `Json`) is modelled as an inductive, and the
type-directed decode step (`into_result`) is passed in as a function,
since its implementation lives in the external collaborator.
-/

namespace RustBitcoinRpc

/-- The transport's generic self-describing encoded value (models strason's
`Json`).  Only the shapes used by the typed layer matter. -/
inductive Json where
  | null
  | bool (b : Bool)
  | num (n : Nat)
  | str (s : String)
deriving DecidableEq, Repr

/-- The external transport error type (jsonrpc::Error), modelled by its
display form, which is all the typed layer ever inspects or renders. -/
structure JsonRpcError where
  msg : String
deriving DecidableEq, Repr

/-- The kind of error (`ErrorKind` in the source): a JSON-RPC error wrapping
the underlying transport-library error, a daemon error, or any other error. -/
inductive ErrorKind where
  | JsonRpc (e : JsonRpcError)
  | Daemon
  | Other
deriving DecidableEq, Repr

/-- The `From<jsonrpc::Error> for ErrorKind` conversion in the source:
`e.into()` wraps the jsonrpc error in the `JsonRpc` variant. -/
def ErrorKind.fromJsonRpcError (e : JsonRpcError) : ErrorKind :=
  ErrorKind.JsonRpc e

/-- The error type for bitcoin JSON-RPC operations (`Error` in the source):
a kind paired with a human description. -/
structure Error where
  kind : ErrorKind
  desc : String
deriving DecidableEq, Repr

/-- Constructor `Error::new(kind, desc)` from the source. -/
def Error.new (kind : ErrorKind) (desc : String) : Error :=
  { kind := kind, desc := desc }

/-- The `Display` impl for `Error` in the source, rendered to a string:
a JsonRpc-kind error shows "JSON-RPC error: {desc} ({cause})", a Daemon-kind
error shows "bitcoind daemon error: {desc}", an Other-kind error shows the
description alone. -/
def Error.display (e : Error) : String :=
  match e.kind with
  | ErrorKind.JsonRpc je => "JSON-RPC error: " ++ e.desc ++ " (" ++ je.msg ++ ")"
  | ErrorKind.Daemon => "bitcoind daemon error: " ++ e.desc
  | ErrorKind.Other => e.desc

/-- Type of RPC results (`RpcResult<T> = Result<T, Error>` in the source). -/
abbrev RpcResult (T : Type) := Except Error T

/-- A request as built by the transport collaborator from a method name and
a positional parameter list. -/
structure Request where
  method : String
  params : List Json
deriving DecidableEq, Repr

/-- The external transport client's state (jsonrpc::Client), holding the
connection endpoint and optional credentials. -/
structure Client where
  url : String
  user : Option String
  pass : Option String
deriving DecidableEq, Repr

/-- Constructor `Client::new(url, user, pass)` of the external transport
collaborator. -/
def Client.new (url : String) (user : Option String) (pass : Option String) : Client :=
  { url := url, user := user, pass := pass }

/-- The transport collaborator's `build_request(name, params)`: pairs the
method name with the positional parameter list. -/
def Client.build_request (_c : Client) (name : String) (params : List Json) : Request :=
  { method := name, params := params }

/-- Behaviour of the external wire: what `send_request` returns for each
request — either a raw response payload or a transport-level failure. -/
abbrev Transport := Request → Except JsonRpcError Json

/-- The transport collaborator's `send_request(request)` under a given wire
behaviour. -/
def Client.send_request (_c : Client) (transport : Transport) (r : Request) :
    Except JsonRpcError Json :=
  transport r

/-- A handle to a Bitcoin JSON-RPC connection (`BitcoinRpc` in the source):
its only field is the transport client. -/
structure BitcoinRpc where
  client : Client
deriving DecidableEq, Repr

/-- Constructor `BitcoinRpc::new(url, user, pass)`.  The source guards it
with `debug_assert!(pass.is_none() || user.is_some())` before constructing
the client; the assertion firing (password supplied without a username) is
modelled as `none`, and no transport interaction happens in either case. -/
def BitcoinRpc.new (url : String) (user : Option String) (pass : Option String) :
    Option BitcoinRpc :=
  if pass.isNone || user.isSome then
    some { client := Client.new url user pass }
  else
    none

/-- The `rpc_request!` macro body: build a request from the method name and
parameter list, send it once, and on transport failure wrap the underlying
error as `Error::new(e.into(), "RPC error")` and return it immediately.
The second component is the trace of requests handed to `send_request`,
recording that exactly one send attempt is made. -/
def rpc_request (client : Client) (transport : Transport) (name : String)
    (params : List Json) : Except Error Json × List Request :=
  let request := client.build_request name params
  match client.send_request transport request with
  | Except.error e =>
      (Except.error (Error.new (ErrorKind.fromJsonRpcError e) "RPC error"), [request])
  | Except.ok resp => (Except.ok resp, [request])

/-- The `rpc_method!` macro body, shared by every zero-argument command:
send the request with an empty parameter list, then decode the raw response
with the result type's `into_result`, wrapping a decode failure as
`Error::new(e.into(), "Malformed response")`. -/
def rpc_method {T : Type} (self : BitcoinRpc) (transport : Transport)
    (name : String) (into_result : Json → Except JsonRpcError T) :
    RpcResult T × List Request :=
  match rpc_request self.client transport name [] with
  | (Except.error e, trace) => (Except.error e, trace)
  | (Except.ok response, trace) =>
      match into_result response with
      | Except.error e =>
          (Except.error (Error.new (ErrorKind.fromJsonRpcError e) "Malformed response"), trace)
      | Except.ok v => (Except.ok v, trace)

/-- The fee-estimation mode argument (external type
`bitcoin_rpc_json::mining::EstimateMode`). -/
inductive EstimateMode where
  | Unset
  | Economical
  | Conservative
deriving DecidableEq, Repr

/-- The fee-estimation result type (external type
`bitcoin_rpc_json::mining::EstimateSmartFee`); its fields are never
inspected by the typed call layer, so a representative shape suffices. -/
structure EstimateSmartFee where
  feerate : Option Nat
  blocks : Nat
deriving DecidableEq, Repr

/-- The network-information result type (external type
`bitcoin_rpc_json::net::NetworkInfo`); its fields are never inspected by
the typed call layer, so a representative shape suffices. -/
structure NetworkInfo where
  version : Nat
  subversion : String
deriving DecidableEq, Repr

/-- Typeclass modelling the value-encoding contract `Json::from_serialize`
(assumed total for the value shapes used here, so the source's `.unwrap()`
always succeeds). -/
class Serialize (α : Type) where
  encode : α → Json

/-- The source's `Json::from_serialize(x).unwrap()` applied to a local
typed value. -/
def Json.from_serialize {α : Type} [Serialize α] (x : α) : Json :=
  Serialize.encode x

instance : Serialize Nat := ⟨Json.num⟩

instance : Serialize Bool := ⟨Json.bool⟩

instance : Serialize String := ⟨Json.str⟩

instance : Serialize EstimateMode :=
  ⟨fun m =>
    match m with
    | EstimateMode.Unset => Json.str "unset"
    | EstimateMode.Economical => Json.str "economical"
    | EstimateMode.Conservative => Json.str "conservative"⟩

/-- A Bitcoin transaction (external type
`bitcoin::blockdata::transaction::Transaction`), modelled opaquely by its
serialized wire bytes, each in 0..256. -/
structure Transaction where
  bytes : List Nat
deriving DecidableEq, Repr

/-- Hex digit character for a value in 0..16. -/
def hexChar (n : Nat) : Char :=
  if n < 10 then Char.ofNat (48 + n) else Char.ofNat (87 + n)

/-- The external `bitcoin::network::serialize::serialize_hex`: the canonical
hexadecimal wire encoding of a transaction (assumed infallible, matching the
source's `.unwrap()`). -/
def serialize_hex (tx : Transaction) : String :=
  String.mk (tx.bytes.flatMap (fun b => [hexChar (b / 16 % 16), hexChar (b % 16)]))

/-- A double-SHA256 hash value (external type
`bitcoin::util::hash::Sha256dHash`), modelled by its 32 bytes. -/
structure Sha256dHash where
  data : List Nat
deriving DecidableEq, Repr

/-- Numeric value of a hex digit character, if it is one. -/
def hexDigitVal (c : Char) : Option Nat :=
  if 48 ≤ c.toNat ∧ c.toNat ≤ 57 then some (c.toNat - 48)
  else if 97 ≤ c.toNat ∧ c.toNat ≤ 102 then some (c.toNat - 87)
  else if 65 ≤ c.toNat ∧ c.toNat ≤ 70 then some (c.toNat - 55)
  else none

/-- Parse a character list as consecutive hex byte pairs. -/
def hexPairs : List Char → Option (List Nat)
  | [] => some []
  | [_] => none
  | a :: b :: rest =>
      match hexDigitVal a, hexDigitVal b, hexPairs rest with
      | some hi, some lo, some tail => some ((hi * 16 + lo) :: tail)
      | _, _, _ => none

/-- The external `Sha256dHash::from_hex`: parses a 64-character hex string
into a hash value, failing on any other input. -/
def Sha256dHash.from_hex (s : String) : Option Sha256dHash :=
  if s.length = 64 then (hexPairs s.data).map (fun bs => { data := bs }) else none

/-- Typed command `estimatesmartfee(conf_target, estimate_mode)` from the
source: pushes the encoded confirmation target, then the encoded estimation
mode only when present, sends the request under method name
"estimatesmartfee", and decodes the response into `EstimateSmartFee`,
wrapping a decode failure as a "Malformed response" error.  The second
component is the trace of requests handed to the transport. -/
def estimatesmartfee (self : BitcoinRpc) (transport : Transport)
    (into_result : Json → Except JsonRpcError EstimateSmartFee)
    (conf_target : Nat) (estimate_mode : Option EstimateMode) :
    RpcResult EstimateSmartFee × List Request :=
  let params := [Json.from_serialize conf_target]
  let params :=
    match estimate_mode with
    | some m => params ++ [Json.from_serialize m]
    | none => params
  match rpc_request self.client transport "estimatesmartfee" params with
  | (Except.error e, trace) => (Except.error e, trace)
  | (Except.ok response, trace) =>
      match into_result response with
      | Except.error e =>
          (Except.error (Error.new (ErrorKind.fromJsonRpcError e) "Malformed response"), trace)
      | Except.ok v => (Except.ok v, trace)

/-- Typed command `getconnectioncount()`: an instance of the `rpc_method!`
macro, whose method-name string is `stringify!` of the function name. -/
def getconnectioncount (self : BitcoinRpc) (transport : Transport)
    (into_result : Json → Except JsonRpcError Nat) : RpcResult Nat × List Request :=
  rpc_method self transport "getconnectioncount" into_result

/-- Typed command `ping()`: an instance of the `rpc_method!` macro, whose
method-name string is `stringify!` of the function name. -/
def ping (self : BitcoinRpc) (transport : Transport)
    (into_result : Json → Except JsonRpcError Unit) : RpcResult Unit × List Request :=
  rpc_method self transport "ping" into_result

/-- Typed command `getnetworkinfo()`: an instance of the `rpc_method!`
macro, whose method-name string is `stringify!` of the function name. -/
def getnetworkinfo (self : BitcoinRpc) (transport : Transport)
    (into_result : Json → Except JsonRpcError NetworkInfo) :
    RpcResult NetworkInfo × List Request :=
  rpc_method self transport "getnetworkinfo" into_result

/-- Typed command `sendrawtransaction(tx, allowhighfees)` from the source:
serializes the transaction to its canonical hex wire encoding (first
parameter), appends the encoded allow-high-fees flag only when present,
sends under method name "sendrawtransaction", decodes the response as a
`String` (decode failure becomes a "Malformed response" error), and finally
parses that string with `Sha256dHash::from_hex(..).unwrap()` — the
`.unwrap()` panic on parse failure is modelled as the outcome `none`,
distinct from every returned `RpcResult`. -/
def sendrawtransaction (self : BitcoinRpc) (transport : Transport)
    (into_result : Json → Except JsonRpcError String)
    (tx : Transaction) (allowhighfees : Option Bool) :
    Option (RpcResult Sha256dHash) × List Request :=
  let rawtx := serialize_hex tx
  let params := [Json.from_serialize rawtx]
  let params :=
    match allowhighfees with
    | some b => params ++ [Json.from_serialize b]
    | none => params
  match rpc_request self.client transport "sendrawtransaction" params with
  | (Except.error e, trace) => (some (Except.error e), trace)
  | (Except.ok response, trace) =>
      match into_result response with
      | Except.error e =>
          (some (Except.error (Error.new (ErrorKind.fromJsonRpcError e) "Malformed response")),
           trace)
      | Except.ok v =>
          match Sha256dHash.from_hex v with
          | none => (none, trace)
          | some h => (some (Except.ok h), trace)

/-- One typed command invocation with its arguments: the public call
surface of the handle. -/
inductive Command where
  | estimatesmartfee (conf_target : Nat) (estimate_mode : Option EstimateMode)
  | getconnectioncount
  | ping
  | getnetworkinfo
  | sendrawtransaction (tx : Transaction) (allowhighfees : Option Bool)
deriving DecidableEq, Repr

/-- The type-directed decode step (`into_result::<T>`) of the external raw
response, one decoder per declared result type used by the commands. -/
structure Decoders where
  estimateSmartFee : Json → Except JsonRpcError EstimateSmartFee
  connectionCount : Json → Except JsonRpcError Nat
  pingUnit : Json → Except JsonRpcError Unit
  networkInfo : Json → Except JsonRpcError NetworkInfo
  rawString : Json → Except JsonRpcError String

instance {ε α : Type} [DecidableEq ε] [DecidableEq α] : DecidableEq (Except ε α) :=
  fun x y =>
    match x, y with
    | Except.error a, Except.error b =>
        if h : a = b then isTrue (by rw [h])
        else isFalse (fun hh => h (by cases hh; rfl))
    | Except.error _, Except.ok _ => isFalse (fun hh => by cases hh)
    | Except.ok _, Except.error _ => isFalse (fun hh => by cases hh)
    | Except.ok a, Except.ok b =>
        if h : a = b then isTrue (by rw [h])
        else isFalse (fun hh => h (by cases hh; rfl))

/-- The typed outcome of one command invocation, one variant per declared
result type; raw transaction submission additionally distinguishes the
abrupt-termination outcome (its result is `none` when the final hash parse
panics). -/
inductive CommandResult where
  | estimateFee (r : RpcResult EstimateSmartFee)
  | connCount (r : RpcResult Nat)
  | pingDone (r : RpcResult Unit)
  | netInfo (r : RpcResult NetworkInfo)
  | sentRawTx (r : Option (RpcResult Sha256dHash))
deriving DecidableEq, Repr

/-- The classified error carried by a command outcome, when the outcome is
a returned error. -/
def CommandResult.err? : CommandResult → Option Error
  | CommandResult.estimateFee (Except.error e) => some e
  | CommandResult.connCount (Except.error e) => some e
  | CommandResult.pingDone (Except.error e) => some e
  | CommandResult.netInfo (Except.error e) => some e
  | CommandResult.sentRawTx (some (Except.error e)) => some e
  | _ => none

/-- Dispatch one typed command on the handle: each arm is the corresponding
source method, and the request trace is returned alongside the result. -/
def runCommand (self : BitcoinRpc) (transport : Transport) (decs : Decoders) :
    Command → CommandResult × List Request
  | Command.estimatesmartfee t m =>
      (CommandResult.estimateFee (estimatesmartfee self transport decs.estimateSmartFee t m).1,
       (estimatesmartfee self transport decs.estimateSmartFee t m).2)
  | Command.getconnectioncount =>
      (CommandResult.connCount (getconnectioncount self transport decs.connectionCount).1,
       (getconnectioncount self transport decs.connectionCount).2)
  | Command.ping =>
      (CommandResult.pingDone (ping self transport decs.pingUnit).1,
       (ping self transport decs.pingUnit).2)
  | Command.getnetworkinfo =>
      (CommandResult.netInfo (getnetworkinfo self transport decs.networkInfo).1,
       (getnetworkinfo self transport decs.networkInfo).2)
  | Command.sendrawtransaction tx f =>
      (CommandResult.sentRawTx (sendrawtransaction self transport decs.rawString tx f).1,
       (sendrawtransaction self transport decs.rawString tx f).2)

/-- One command invocation as a state transition on the handle.  Every
method of the source takes the handle by shared reference (`&self`) and
never reassigns its single field, so the post-state is the pre-state. -/
def callCommand (self : BitcoinRpc) (transport : Transport) (decs : Decoders)
    (c : Command) : CommandResult × BitcoinRpc :=
  ((runCommand self transport decs c).1, self)

/-- Run a sequence of typed commands on the handle, threading the handle
state through each call. -/
def runCalls (transport : Transport) (decs : Decoders) :
    BitcoinRpc → List Command → BitcoinRpc
  | self, [] => self
  | self, c :: cs => runCalls transport decs (callCommand self transport decs c).2 cs

/-- Decoders that all fail with a fixed decode error: the decode-failure
injection of the spec's testable properties. -/
def failDecoders (e : JsonRpcError) : Decoders :=
  { estimateSmartFee := fun _ => Except.error e
    connectionCount := fun _ => Except.error e
    pingUnit := fun _ => Except.error e
    networkInfo := fun _ => Except.error e
    rawString := fun _ => Except.error e }

/-- Sample decoders for concrete evaluations: each succeeds on the payload
shapes it expects and fails otherwise. -/
def sampleDecoders : Decoders :=
  { estimateSmartFee := fun j =>
      match j with
      | Json.num n => Except.ok { feerate := some n, blocks := n }
      | _ => Except.error { msg := "bad fee payload" }
    connectionCount := fun j =>
      match j with
      | Json.num n => Except.ok n
      | _ => Except.error { msg := "bad count payload" }
    pingUnit := fun j =>
      match j with
      | Json.null => Except.ok ()
      | _ => Except.error { msg := "bad ping payload" }
    networkInfo := fun j =>
      match j with
      | Json.num n => Except.ok { version := n, subversion := "/Satoshi/" }
      | _ => Except.error { msg := "bad netinfo payload" }
    rawString := fun j =>
      match j with
      | Json.str s => Except.ok s
      | _ => Except.error { msg := "bad txid payload" } }

/-- A concrete connection handle for witnesses and counterexamples. -/
def sampleRpc : BitcoinRpc :=
  { client := Client.new "http:127.0.0.1:8332" (some "alice") (some "hunter2") }

/-- Shape of every error produced by the `rpc_request!` step: a transport
failure is wrapped as `Error::new(e.into(), "RPC error")`. -/
theorem rpc_request_fst_error (client : Client) (transport : Transport)
    (name : String) (params : List Json) (err : Error) :
    (rpc_request client transport name params).1 = Except.error err →
    ∃ e, err = Error.new (ErrorKind.JsonRpc e) "RPC error" := by
  simp only [rpc_request, Client.build_request, Client.send_request]
  split <;> intro h
  · exact ⟨_, by simpa using h.symm⟩
  · simp at h

/-- C1: for every typed command, if the transport's send step returns a
transport error e, the call returns a classified error wrapping exactly e in
the transport/protocol (JsonRpc) kind with description "RPC error", and
exactly one send attempt is made (the request trace has length one). -/
theorem transport_error_wrapped_once (self : BitcoinRpc) (decs : Decoders)
    (cmd : Command) (e : JsonRpcError) :
    (runCommand self (fun _ => Except.error e) decs cmd).1.err?
      = some (Error.new (ErrorKind.JsonRpc e) "RPC error")
    ∧ (runCommand self (fun _ => Except.error e) decs cmd).2.length = 1 := by
  cases cmd <;> exact ⟨rfl, rfl⟩

/-- C2: for every typed command, if the transport round-trip succeeds with
any payload but the decode into the command's declared result type fails
with decode error e, the call returns a classified error with description
"Malformed response" carrying e as cause, regardless of the command. -/
theorem decode_error_malformed_response (self : BitcoinRpc) (cmd : Command)
    (j : Json) (e : JsonRpcError) :
    (runCommand self (fun _ => Except.ok j) (failDecoders e) cmd).1.err?
      = some (Error.new (ErrorKind.JsonRpc e) "Malformed response") := by
  cases cmd <;> rfl

/-- C3 counterexample: a concrete transport failure and a concrete decode
failure on the `ping` command produce distinct classified errors whose
kinds are equal — both are wrapped in the `JsonRpc` tag — so a decode
failure is not distinguishable from a transport failure by its tag alone;
only the description strings differ.  The code has no malformed-response
tag in `ErrorKind`. -/
theorem decode_tag_equals_transport_tag_cex :
    ((runCommand sampleRpc (fun _ => Except.error { msg := "boom" }) sampleDecoders
        Command.ping).1.err?).map Error.kind
      = ((runCommand sampleRpc (fun _ => Except.ok Json.null)
          (failDecoders { msg := "boom" }) Command.ping).1.err?).map Error.kind
    ∧ ((runCommand sampleRpc (fun _ => Except.error { msg := "boom" }) sampleDecoders
        Command.ping).1.err?)
      ≠ ((runCommand sampleRpc (fun _ => Except.ok Json.null)
          (failDecoders { msg := "boom" }) Command.ping).1.err?)
    ∧ ((runCommand sampleRpc (fun _ => Except.error { msg := "boom" }) sampleDecoders
        Command.ping).1.err?).map Error.desc
      ≠ ((runCommand sampleRpc (fun _ => Except.ok Json.null)
          (failDecoders { msg := "boom" }) Command.ping).1.err?).map Error.desc := by
  refine ⟨rfl, ?_, ?_⟩ <;> decide

/-- C3 amended: the classified error value is a tagged union with three
tags — JsonRpc (transport/protocol failure, carrying the underlying
transport-library error), Daemon, and Other (generic failure with
description) — and a decode failure is wrapped in the same JsonRpc tag as
a transport failure, so the two are distinguishable only by their
description strings ("Malformed response" versus "RPC error"), not by tag
alone. -/
theorem error_union_three_tags_decode_shares_transport_tag
    (self : BitcoinRpc) (decs : Decoders) (cmd : Command)
    (e e2 : JsonRpcError) (j : Json) :
    (∀ k : ErrorKind,
      (∃ je, k = ErrorKind.JsonRpc je) ∨ k = ErrorKind.Daemon ∨ k = ErrorKind.Other)
    ∧ ((runCommand self (fun _ => Except.error e) decs cmd).1.err?).map Error.kind
        = some (ErrorKind.JsonRpc e)
    ∧ ((runCommand self (fun _ => Except.ok j) (failDecoders e2) cmd).1.err?).map Error.kind
        = some (ErrorKind.JsonRpc e2)
    ∧ ((runCommand self (fun _ => Except.error e) decs cmd).1.err?).map Error.desc
        = some "RPC error"
    ∧ ((runCommand self (fun _ => Except.ok j) (failDecoders e2) cmd).1.err?).map Error.desc
        = some "Malformed response" := by
  refine ⟨fun k => ?_, ?_, ?_, ?_, ?_⟩
  · cases k with
    | JsonRpc je => exact Or.inl ⟨je, rfl⟩
    | Daemon => exact Or.inr (Or.inl rfl)
    | Other => exact Or.inr (Or.inr rfl)
  all_goals cases cmd <;> rfl

/-- C4: `estimatesmartfee` with confirmation target t builds the
one-element parameter list [t] when the estimation mode is absent, and the
two-element list [t, m] when mode m is supplied, with the required
parameter first, for every transport behaviour. -/
theorem estimatesmartfee_params_shape (self : BitcoinRpc) (transport : Transport)
    (dec : Json → Except JsonRpcError EstimateSmartFee) (t : Nat) :
    (estimatesmartfee self transport dec t none).2
      = [{ method := "estimatesmartfee", params := [Json.from_serialize t] }]
    ∧ ∀ m : EstimateMode,
        (estimatesmartfee self transport dec t (some m)).2
          = [{ method := "estimatesmartfee",
               params := [Json.from_serialize t, Json.from_serialize m] }] := by
  constructor
  · cases htr : transport (Request.mk "estimatesmartfee" [Json.from_serialize t]) with
    | error e =>
        simp [estimatesmartfee, rpc_request, Client.build_request, Client.send_request, htr]
    | ok resp =>
        cases hd : dec resp <;>
          simp [estimatesmartfee, rpc_request, Client.build_request, Client.send_request,
            htr, hd]
  · intro m
    cases htr : transport
        (Request.mk "estimatesmartfee" [Json.from_serialize t, Json.from_serialize m]) with
    | error e =>
        simp [estimatesmartfee, rpc_request, Client.build_request, Client.send_request, htr]
    | ok resp =>
        cases hd : dec resp <;>
          simp [estimatesmartfee, rpc_request, Client.build_request, Client.send_request,
            htr, hd]

/-- C5: each zero-argument command sends one request with an empty
parameter list under its exact method name ("getconnectioncount", "ping",
"getnetworkinfo"), for every transport behaviour, and on a successful
round-trip whose payload decodes to v it returns exactly v. -/
theorem zero_arg_commands_shape (self : BitcoinRpc) (transport : Transport)
    (decs : Decoders) :
    ((getconnectioncount self transport decs.connectionCount).2
        = [Request.mk "getconnectioncount" []]
      ∧ (ping self transport decs.pingUnit).2 = [Request.mk "ping" []]
      ∧ (getnetworkinfo self transport decs.networkInfo).2
        = [Request.mk "getnetworkinfo" []])
    ∧ (∀ (j : Json) (v : Nat), decs.connectionCount j = Except.ok v →
        (getconnectioncount self (fun _ => Except.ok j) decs.connectionCount).1
          = Except.ok v)
    ∧ (∀ j : Json, decs.pingUnit j = Except.ok () →
        (ping self (fun _ => Except.ok j) decs.pingUnit).1 = Except.ok ())
    ∧ (∀ (j : Json) (v : NetworkInfo), decs.networkInfo j = Except.ok v →
        (getnetworkinfo self (fun _ => Except.ok j) decs.networkInfo).1
          = Except.ok v) := by
  refine ⟨⟨?_, ?_, ?_⟩, fun j v h => ?_, fun j h => ?_, fun j v h => ?_⟩
  · cases htr : transport (Request.mk "getconnectioncount" []) with
    | error e =>
        simp [getconnectioncount, rpc_method, rpc_request, Client.build_request,
          Client.send_request, htr]
    | ok resp =>
        cases hd : decs.connectionCount resp <;>
          simp [getconnectioncount, rpc_method, rpc_request, Client.build_request,
            Client.send_request, htr, hd]
  · cases htr : transport (Request.mk "ping" []) with
    | error e =>
        simp [ping, rpc_method, rpc_request, Client.build_request,
          Client.send_request, htr]
    | ok resp =>
        cases hd : decs.pingUnit resp <;>
          simp [ping, rpc_method, rpc_request, Client.build_request,
            Client.send_request, htr, hd]
  · cases htr : transport (Request.mk "getnetworkinfo" []) with
    | error e =>
        simp [getnetworkinfo, rpc_method, rpc_request, Client.build_request,
          Client.send_request, htr]
    | ok resp =>
        cases hd : decs.networkInfo resp <;>
          simp [getnetworkinfo, rpc_method, rpc_request, Client.build_request,
            Client.send_request, htr, hd]
  · simp [getconnectioncount, rpc_method, rpc_request, Client.build_request,
      Client.send_request, h]
  · simp [ping, rpc_method, rpc_request, Client.build_request,
      Client.send_request, h]
  · simp [getnetworkinfo, rpc_method, rpc_request, Client.build_request,
      Client.send_request, h]

/-- C5 witness: with a transport stub answering the payload 8 and the
sample decoders, `getconnectioncount` succeeds with the decoded value 8. -/
theorem zero_arg_commands_shape_witness :
    sampleDecoders.connectionCount (Json.num 8) = Except.ok 8
    ∧ (getconnectioncount sampleRpc (fun _ => Except.ok (Json.num 8))
        sampleDecoders.connectionCount).1 = Except.ok 8 :=
  ⟨rfl,
    (zero_arg_commands_shape sampleRpc (fun _ => Except.ok (Json.num 8))
      sampleDecoders).2.1 (Json.num 8) 8 rfl⟩

/-- C6: `sendrawtransaction` places the canonical hex wire encoding of the
transaction as the first (string) parameter, appends the encoded
allow-high-fees flag only when supplied, and on a successful round-trip
decoding to string s, the result is the parsed typed hash when
`Sha256dHash.from_hex` succeeds on s, and the abrupt-termination outcome
`none` (not a classified error) when the parse fails. -/
theorem sendrawtransaction_hex_and_parse (self : BitcoinRpc) (transport : Transport)
    (dec : Json → Except JsonRpcError String) (tx : Transaction) :
    ((sendrawtransaction self transport dec tx none).2
        = [Request.mk "sendrawtransaction" [Json.str (serialize_hex tx)]]
      ∧ ∀ b : Bool,
          (sendrawtransaction self transport dec tx (some b)).2
            = [Request.mk "sendrawtransaction"
                [Json.str (serialize_hex tx), Json.bool b]])
    ∧ (∀ (j : Json) (s : String) (f : Option Bool), dec j = Except.ok s →
        (sendrawtransaction self (fun _ => Except.ok j) dec tx f).1
          = match Sha256dHash.from_hex s with
            | some h => some (Except.ok h)
            | none => none) := by
  refine ⟨⟨?_, fun b => ?_⟩, fun j s f h => ?_⟩
  · cases htr : transport
        (Request.mk "sendrawtransaction" [Json.str (serialize_hex tx)]) with
    | error e =>
        simp [sendrawtransaction, rpc_request, Client.build_request, Client.send_request,
          Json.from_serialize, Serialize.encode, htr]
    | ok resp =>
        cases hd : dec resp with
        | error e =>
            simp [sendrawtransaction, rpc_request, Client.build_request,
              Client.send_request, Json.from_serialize, Serialize.encode, htr, hd]
        | ok s =>
            cases hx : Sha256dHash.from_hex s <;>
              simp [sendrawtransaction, rpc_request, Client.build_request,
                Client.send_request, Json.from_serialize, Serialize.encode, htr, hd, hx]
  · cases htr : transport
        (Request.mk "sendrawtransaction"
          [Json.str (serialize_hex tx), Json.bool b]) with
    | error e =>
        simp [sendrawtransaction, rpc_request, Client.build_request, Client.send_request,
          Json.from_serialize, Serialize.encode, htr]
    | ok resp =>
        cases hd : dec resp with
        | error e =>
            simp [sendrawtransaction, rpc_request, Client.build_request,
              Client.send_request, Json.from_serialize, Serialize.encode, htr, hd]
        | ok s =>
            cases hx : Sha256dHash.from_hex s <;>
              simp [sendrawtransaction, rpc_request, Client.build_request,
                Client.send_request, Json.from_serialize, Serialize.encode, htr, hd, hx]
  · cases f <;>
    · cases hx : Sha256dHash.from_hex s <;>
        simp [sendrawtransaction, rpc_request, Client.build_request,
          Client.send_request, h, hx]

/-- C6 witness: against a transport stub answering the non-hex string "zz",
raw transaction submission hits the final parse step and terminates
abruptly (outcome `none`), returning no classified error. -/
theorem sendrawtransaction_hex_and_parse_witness :
    sampleDecoders.rawString (Json.str "zz") = Except.ok "zz"
    ∧ (sendrawtransaction sampleRpc (fun _ => Except.ok (Json.str "zz"))
        sampleDecoders.rawString (Transaction.mk [0, 1]) none).1 = none := by
  refine ⟨rfl, ?_⟩
  rw [(sendrawtransaction_hex_and_parse sampleRpc (fun _ => Except.ok (Json.str "zz"))
    sampleDecoders.rawString (Transaction.mk [0, 1])).2 (Json.str "zz") "zz" none rfl]
  decide

/-- C7: constructing a handle with a password and no username violates the
precondition and is flagged by the defensive assertion (no handle is
produced, before any transport interaction); a username without a password,
neither, or both satisfy the precondition and construct the handle. -/
theorem new_password_requires_username (url u p : String) :
    BitcoinRpc.new url none (some p) = none
    ∧ (BitcoinRpc.new url (some u) none).isSome = true
    ∧ (BitcoinRpc.new url none none).isSome = true
    ∧ (BitcoinRpc.new url (some u) (some p)).isSome = true := by
  refine ⟨?_, ?_, ?_, ?_⟩ <;> simp [BitcoinRpc.new]

/-- C8: the display form of a classified error is determined by its kind:
"JSON-RPC error: {description} ({underlying cause})" for the
transport/protocol (JsonRpc) kind, "bitcoind daemon error: {description}"
for the Daemon kind, and the description alone for the Other kind. -/
theorem error_display_forms (je : JsonRpcError) (d : String) :
    (Error.new (ErrorKind.JsonRpc je) d).display
      = "JSON-RPC error: " ++ d ++ " (" ++ je.msg ++ ")"
    ∧ (Error.new ErrorKind.Daemon d).display = "bitcoind daemon error: " ++ d
    ∧ (Error.new ErrorKind.Other d).display = d :=
  ⟨rfl, rfl, rfl⟩

/-- C9: for every typed command and every transport and decode behaviour,
a returned classified error never carries the daemon-failure kind: no
command code path constructs `ErrorKind.Daemon`. -/
theorem no_daemon_kind_constructed (self : BitcoinRpc) (transport : Transport)
    (decs : Decoders) (cmd : Command) (err : Error) :
    (runCommand self transport decs cmd).1.err? = some err →
    err.kind ≠ ErrorKind.Daemon := by
  intro h
  cases cmd <;>
    simp only [runCommand, estimatesmartfee, getconnectioncount, ping, getnetworkinfo,
      sendrawtransaction, rpc_method] at h
  all_goals repeat' split at h
  all_goals simp [CommandResult.err?] at h
  all_goals subst h
  all_goals
    first
      | (simp [Error.new, ErrorKind.fromJsonRpcError]; done)
      | (rename_i heq
         obtain ⟨e2, he⟩ := rpc_request_fst_error _ _ _ _ _ (congrArg Prod.fst heq)
         subst he
         simp [Error.new])

/-- C9 witness: a concrete transport failure on `ping` yields an error, and
its kind is not the daemon-failure kind. -/
theorem no_daemon_kind_constructed_witness :
    (runCommand sampleRpc (fun _ => Except.error (JsonRpcError.mk "connection refused"))
        sampleDecoders Command.ping).1.err?
      = some (Error.new (ErrorKind.JsonRpc (JsonRpcError.mk "connection refused"))
          "RPC error")
    ∧ (Error.new (ErrorKind.JsonRpc (JsonRpcError.mk "connection refused"))
        "RPC error").kind ≠ ErrorKind.Daemon :=
  ⟨rfl,
    no_daemon_kind_constructed sampleRpc
      (fun _ => Except.error (JsonRpcError.mk "connection refused"))
      sampleDecoders Command.ping _ rfl⟩

/-- C10: no typed command mutates the connection handle — every method
takes it by shared reference — so the handle after any single call, and
after any sequence of calls, equals its state immediately after `new`. -/
theorem handle_state_unchanged (url : String) (user pass : Option String)
    (self : BitcoinRpc) (transport : Transport) (decs : Decoders) :
    BitcoinRpc.new url user pass = some self →
    (∀ c : Command, (callCommand self transport decs c).2 = self)
    ∧ ∀ cmds : List Command, runCalls transport decs self cmds = self := by
  intro _
  refine ⟨fun c => rfl, fun cmds => ?_⟩
  induction cmds with
  | nil => rfl
  | cons c cs ih => exact ih

/-- C10 witness: a freshly constructed handle is unchanged by a concrete
sequence of calls. -/
theorem handle_state_unchanged_witness :
    BitcoinRpc.new "http:127.0.0.1:8332" (some "alice") (some "hunter2") = some sampleRpc
    ∧ runCalls (fun _ => Except.ok Json.null) sampleDecoders sampleRpc
        [Command.ping, Command.getconnectioncount] = sampleRpc :=
  ⟨rfl,
    (handle_state_unchanged "http:127.0.0.1:8332" (some "alice") (some "hunter2")
        sampleRpc (fun _ => Except.ok Json.null) sampleDecoders rfl).2
      [Command.ping, Command.getconnectioncount]⟩

end RustBitcoinRpc
